import Mathlib

set_option maxRecDepth 10000

attribute [local semireducible] Rat.add Rat.sub Rat.mul Rat.inv

/-!
Verification development for `ib_intraday_15m_strategy_auto_pos.py`.

Prices, costs and volumes are embedded as exact rationals (`ℚ`); Python's
`round(x, n)` (banker's rounding, round half to even) is modelled by `pyRound`,
and Python's `int(x)` truncation by `truncQ`.  Python dicts that accumulate
heterogeneous per-symbol fields are modelled by a single record type
(`SignalRecord`) whose fields are all optional, absence of a key being `none`.
The orchestrator (`Intraday15mStrategyAutoPosApp`)'s mutable maps become
function-typed fields of `OrchState`, and its provider callbacks become state
transformers.  An uncaught Python exception inside a callback is modelled
explicitly (`ProcResult.crash`).
-/

namespace Strategy

/-- Round a rational to the nearest integer, ties to the even integer —
the rounding mode of Python's built-in `round`. -/
def pyRoundInt (q : ℚ) : ℤ :=
  if Int.fract q < 1/2 then ⌊q⌋
  else if 1/2 < Int.fract q then ⌊q⌋ + 1
  else if ⌊q⌋ % 2 = 0 then ⌊q⌋ else ⌊q⌋ + 1

/-- Python's `round(q, n)` on exact rationals. -/
def pyRound (q : ℚ) (n : ℕ) : ℚ :=
  (pyRoundInt (q * 10 ^ n) : ℚ) / 10 ^ n

/-- Python's `int(q)`: truncation toward zero. -/
def truncQ (q : ℚ) : ℤ :=
  if 0 ≤ q then ⌊q⌋ else ⌈q⌉

/-- The fields of an `ibapi` `BarData` that the script reads
(`date`, `high`, `low`, `close`, `volume`). -/
structure Bar where
  date : String
  high : ℚ
  low : ℚ
  close : ℚ
  volume : ℚ
deriving DecidableEq, Repr

def dummyBar : Bar := { date := "", high := 0, low := 0, close := 0, volume := 0 }

/-- One per-symbol result dict (the values stored in `self.signals`).  Every
field is optional because the Python dicts carry different key sets on the
intraday, daily and error paths; a missing key is `none`. -/
structure SignalRecord where
  symbol : Option String := none
  last_time : Option String := none
  last_close : Option ℚ := none
  last_vol : Option ℤ := none
  ma20 : Option ℚ := none
  vol20 : Option ℤ := none
  reason : Option String := none
  signal : Option String := none
  signal_15m : Option String := none
  signal_1h : Option String := none
  reason_15m : Option String := none
  reason_1h : Option String := none
  intraday_comment : Option String := none
  vwap : Option ℚ := none
  cost : Option ℚ := none
  pnl_pct : Option ℚ := none
  action : Option String := none
  bands_defense : Option (List ℚ) := none
  bands_offense : Option (List ℚ) := none
  ema20 : Option ℚ := none
  last_price : Option ℚ := none
  ma50 : Option ℚ := none
  ma200 : Option ℚ := none
  daily_trend : Option String := none
  tech_comment : Option String := none
  shares : Option ℚ := none
  position_value : Option ℚ := none
  fib_levels : Option (List ℚ) := none
  bb_lower : Option ℚ := none
  bb_middle : Option ℚ := none
  bb_upper : Option ℚ := none
deriving DecidableEq, Repr

/-- `last_n = bars[-25:] if len(bars) > 25 else bars` in `generate_bcd_signal`. -/
def last_window (bars : List Bar) : List Bar :=
  if 25 < bars.length then bars.drop (bars.length - 25) else bars

/-- `ma_window = min(20, len(closes))`. -/
def ma_window_size (bars : List Bar) : ℕ :=
  min 20 ((last_window bars).map (·.close)).length

/-- `ma20 = sum(closes[-ma_window:]) / ma_window`. -/
def ma_ref (bars : List Bar) : ℚ :=
  let closes := (last_window bars).map (·.close)
  (closes.drop (closes.length - ma_window_size bars)).sum / (ma_window_size bars : ℚ)

/-- `vol20 = sum(vols[-ma_window:]) / ma_window`. -/
def vol_ref (bars : List Bar) : ℚ :=
  let vols := (last_window bars).map (·.volume)
  (vols.drop (vols.length - ma_window_size bars)).sum / (ma_window_size bars : ℚ)

/-- `last_bar = last_n[-1]`. -/
def last_bar_of (bars : List Bar) : Bar :=
  (last_window bars).getD ((last_window bars).length - 1) dummyBar

/-- `prev_bar = last_n[-2]`. -/
def prev_bar_of (bars : List Bar) : Bar :=
  (last_window bars).getD ((last_window bars).length - 2) dummyBar

def last_close_of (bars : List Bar) : ℚ := (last_bar_of bars).close

def prev_close_of (bars : List Bar) : ℚ := (prev_bar_of bars).close

def last_vol_of (bars : List Bar) : ℚ := (last_bar_of bars).volume

/-- `generate_bcd_signal(symbol, bars)`: the simplified intraday B/C/D signal. -/
def generate_bcd_signal (symbol : String) (bars : List Bar) : String × SignalRecord :=
  if bars.length < 5 then
    ("C", { reason := some "bar 数太少，自动观望" })
  else if ((last_window bars).map (·.close)).length < 3 then
    ("C", { reason := some "有效 bar 少于 3 根，自动观望" })
  else
    let info : SignalRecord :=
      { symbol := some symbol,
        last_time := some (last_bar_of bars).date,
        last_close := some (pyRound (last_close_of bars) 4),
        last_vol := some (truncQ (last_vol_of bars)),
        ma20 := some (pyRound (ma_ref bars) 4),
        vol20 := some (truncQ (vol_ref bars)) }
    if ma_ref bars * (1 + 2/1000) < last_close_of bars
        ∧ prev_close_of bars < last_close_of bars
        ∧ vol_ref bars * (13/10) ≤ last_vol_of bars then
      ("B", { info with reason := some "价在 MA20 上方、放量上涨 → 偏多 B 信号" })
    else if last_close_of bars < ma_ref bars * (1 - 2/1000)
        ∧ last_close_of bars < prev_close_of bars
        ∧ vol_ref bars * (13/10) ≤ last_vol_of bars then
      ("D", { info with reason := some "价在 MA20 下方、放量下跌 → 防守 D 信号" })
    else
      ("C", { info with reason := some "未出现明显放量突破 / 跌破 → 中性 C" })

/-- `calc_pnl_pct(last_close, cost)`. -/
def calc_pnl_pct (last_close : ℚ) (cost : Option ℚ) : Option ℚ :=
  match cost with
  | none => none
  | some c => if c ≤ 0 then none else some ((last_close / c - 1) * 100)

/-- `decide_action(signal, pnl_pct)`. -/
def decide_action (signal : String) (pnl_pct : Option ℚ) : String :=
  match pnl_pct with
  | none =>
    if signal = "B" then "偏多信号，可结合仓位与大盘酌情加仓或持有"
    else if signal = "D" then "防守信号，考虑减仓或设 tighter 止损"
    else "信号中性，观望为主"
  | some pnl =>
    let p := pyRound pnl 2
    if signal = "B" then
      if p ≤ -15 then "深度套牢 + 放量反弹，优先利用反弹减仓 / 降低仓位风险"
      else if p ≤ -5 then "趋势转好但仍亏损，持有为主，可等待更强确认后再考虑加仓"
      else if p < 10 then "小幅浮盈/亏，偏多下可小幅加仓或持有，注意整体仓位"
      else "盈利较多 + 偏多，可考虑分批止盈，同时保留部分主仓继续跟随"
    else if signal = "D" then
      if p ≤ -10 then "趋势偏弱且亏损较大，建议分批减仓或执行原定止损计划"
      else if p < 0 then "轻度亏损 + 偏弱，收紧仓位，避免继续扩大亏损"
      else if p < 15 then "有盈利但出现防守信号，可考虑先锁定一部分利润"
      else "高位防守信号，建议分批止盈，避免回吐过大浮盈"
    else
      if |p| < 5 then "浮盈/亏不大且信号中性，观望为主，不急于操作"
      else if p ≤ -5 then "中性信号 + 亏损，轻仓观察为主，不盲目补仓"
      else "中性信号 + 有盈利，可按计划逐步止盈或继续持有"

/-- `get_recent_high_low(bars, max_lookback)`: `(min of lows, max of highs)`
over the last `max_lookback` bars. -/
def get_recent_high_low (bars : List Bar) (max_lookback : ℕ) : Option ℚ × Option ℚ :=
  if bars.isEmpty then (none, none)
  else
    let sub := if max_lookback < bars.length then bars.drop (bars.length - max_lookback) else bars
    ((sub.map (·.low)).min?, (sub.map (·.high)).max?)

/-- The value returned by a successful `compute_price_bands` call. -/
structure PriceBands where
  defense : List ℚ
  offense : List ℚ
deriving DecidableEq, Repr

/-- `_uniq_sorted(levels)` without `reverse`: keep the positive raw levels,
round each to 4 decimals, deduplicate, sort ascending. -/
def uniq_sorted_asc (levels : List ℚ) : List ℚ :=
  ((((levels.filter (fun x => 0 < x)).map (fun x => pyRound x 4))).dedup).insertionSort (· ≤ ·)

/-- The defense candidate pool of `compute_price_bands` (steps 1–4). -/
def defense_candidates (c : ℚ) (ema20 recent_low recent_high : Option ℚ) : List ℚ :=
  let base := [c * (1 - 5/100), c * (1 - 10/100), c * (1 - 15/100)]
  let withLow := base ++ (match recent_low with
    | some lo => if 0 < lo then [lo] else []
    | none => [])
  let withFib := withLow ++ (match recent_low, recent_high with
    | some lo, some hi =>
      if lo < hi ∧ lo < c then
        ([382/1000, 1/2, 618/1000].map (fun r => c - (c - lo) * r)).filter (fun level => 0 < level)
      else []
    | _, _ => [])
  withFib ++ (match ema20 with
    | some e => if 0 < e ∧ e < c then [e] else []
    | none => [])

/-- The offense candidate pool of `compute_price_bands` (steps 1–4). -/
def offense_candidates (c : ℚ) (ema20 recent_low recent_high : Option ℚ) : List ℚ :=
  let base := [c * (1 + 5/100), c * (1 + 10/100), c * (1 + 15/100), c * (1 + 20/100)]
  let withHigh := base ++ (match recent_high with
    | some hi => if 0 < hi then [hi] else []
    | none => [])
  let withFib := withHigh ++ (match recent_low, recent_high with
    | some lo, some hi =>
      if lo < hi ∧ c < hi then
        (([382/1000, 1/2, 618/1000].map (fun r => c + (hi - c) * r)).filter (fun level => 0 < level))
          ++ [c + (hi - c)]
      else []
    | _, _ => [])
  withFib ++ (match ema20 with
    | some e => if 0 < e ∧ c < e then [e] else []
    | none => [])

/-- `_uniq_sorted(defense_all)` applied to the below-cost candidates. -/
def defense_pool (c : ℚ) (ema20 recent_low recent_high : Option ℚ) : List ℚ :=
  uniq_sorted_asc ((defense_candidates c ema20 recent_low recent_high).filter (fun lv => lv < c))

/-- `defense_sorted_desc[:3]` — the three pool elements nearest the cost from below. -/
def defense_picked (c : ℚ) (ema20 recent_low recent_high : Option ℚ) : List ℚ :=
  (defense_pool c ema20 recent_low recent_high).reverse.take 3

/-- `[round(x, 2) for x in sorted(defense_picked)]`. -/
def defense_out (c : ℚ) (ema20 recent_low recent_high : Option ℚ) : List ℚ :=
  ((defense_picked c ema20 recent_low recent_high).insertionSort (· ≤ ·)).map (fun x => pyRound x 2)

/-- `_uniq_sorted(offense_all)` applied to the above-cost candidates. -/
def offense_pool (c : ℚ) (ema20 recent_low recent_high : Option ℚ) : List ℚ :=
  uniq_sorted_asc ((offense_candidates c ema20 recent_low recent_high).filter (fun lv => c < lv))

/-- `offense_sorted_asc[:4]` — the four pool elements nearest the cost from above. -/
def offense_picked (c : ℚ) (ema20 recent_low recent_high : Option ℚ) : List ℚ :=
  (offense_pool c ema20 recent_low recent_high).take 4

/-- `[round(x, 2) for x in offense_picked]`. -/
def offense_out (c : ℚ) (ema20 recent_low recent_high : Option ℚ) : List ℚ :=
  (offense_picked c ema20 recent_low recent_high).map (fun x => pyRound x 2)

/-- `compute_price_bands(cost, last_price, ema20, recent_low, recent_high)`.
(`last_price` is accepted and ignored, exactly as in the source.) -/
def compute_price_bands (cost last_price ema20 recent_low recent_high : Option ℚ) :
    Option PriceBands :=
  match cost with
  | none => none
  | some c =>
    if c ≤ 0 then none
    else
      let defense := defense_out c ema20 recent_low recent_high
      let offense := offense_out c ema20 recent_low recent_high
      if defense.isEmpty ∨ offense.isEmpty then none
      else some { defense := defense, offense := offense }

/-- `calc_today_vwap_from_15m(bars_15)`: session VWAP over the bars sharing the
final bar's `YYYYMMDD` date prefix, written as the source's accumulation loop. -/
def calc_today_vwap_from_15m (bars_15 : List Bar) : Option ℚ :=
  match bars_15.getLast? with
  | none => none
  | some lastBar =>
    let lastDateStr := lastBar.date.take 8
    let totals := bars_15.foldl (fun acc b =>
      if b.date.take 8 ≠ lastDateStr then acc
      else if b.volume ≤ 0 then acc
      else (acc.1 + b.close * b.volume, acc.2 + b.volume)) (0, 0)
    if totals.2 ≤ 0 then none
    else some (pyRound (totals.1 / totals.2) 4)

/-- The session-VWAP computation as described by the specification (C10):
select exactly the bars whose 8-character date prefix equals the final bar's,
drop the ones with non-positive volume, and return
`sum(close*volume)/sum(volume)` rounded to 4 decimals, absent when the bar
list is empty or the included volume totals zero. -/
def vwap_spec_description (bars_15 : List Bar) : Option ℚ :=
  match bars_15.getLast? with
  | none => none
  | some lastBar =>
    let included := bars_15.filter (fun b => b.date.take 8 = lastBar.date.take 8 ∧ 0 < b.volume)
    let total_vol := (included.map (·.volume)).sum
    if total_vol = 0 then none
    else some (pyRound ((included.map (fun b => b.close * b.volume)).sum / total_vol) 4)

/-- `_combine_intraday_signals(sig_15, sig_1h)`. -/
def combine_intraday_signals (sig_15 sig_1h : String) : String × String :=
  if sig_15 = sig_1h then
    if sig_15 = "B" then ("B", "15m 与 1h 均为 B，短线与小时级别趋势一致偏多。")
    else if sig_15 = "D" then ("D", "15m 与 1h 均为 D，短线与小时级别趋势一致偏弱。")
    else ("C", "15m 与 1h 均为 C，整体偏中性，观望为主。")
  else if sig_15 = "B" ∧ sig_1h = "C" then ("B", "15m 偏多、1h 中性 → 短线反弹，趋势待确认。")
  else if sig_15 = "C" ∧ sig_1h = "B" then ("B", "1h 偏多、15m 回调 → 上升趋势中的短线震荡。")
  else if sig_15 = "D" ∧ sig_1h = "C" then ("D", "15m 偏弱、1h 中性 → 短线走弱，适度防守。")
  else if sig_15 = "C" ∧ sig_1h = "D" then ("D", "1h 偏弱、15m 反弹 → 反弹中的下跌趋势，以减仓为主。")
  else if sig_15 = "B" ∧ sig_1h = "D" then ("C", "15m 偏多但 1h 偏空 → 反弹中的下降趋势，谨慎参与。")
  else if sig_15 = "D" ∧ sig_1h = "B" then ("C", "1h 偏多但 15m 回调 → 上升趋势中的回调，等待企稳后再考虑加仓。")
  else ("C", "15m 与 1h 信号分化，整体以中性观望处理。")

/-- Outcome of one `_process_*_symbol` call: `crash` models an uncaught Python
exception (the `KeyError` on `info["last_close"]`), `skip` an early `return`
that stores nothing, `store` a result written into `self.signals`. -/
inductive ProcResult where
  | crash : ProcResult
  | skip : ProcResult
  | store : SignalRecord → ProcResult
deriving DecidableEq, Repr

/-- The VWAP sentence appended to the intraday comment (±0.2% band around the
session VWAP); when either value is missing the comment is left unchanged. -/
def vwap_comment (base : String) (vwap last_close : Option ℚ) : String :=
  match vwap, last_close with
  | some v, some lc =>
    if v * (1 + 2/1000) < lc then
      base ++ " 当前价在 VWAP(" ++ toString v ++ ") 上方，说明今日整体资金偏多。"
    else if lc < v * (1 - 2/1000) then
      base ++ " 当前价在 VWAP(" ++ toString v ++ ") 下方，说明今日整体资金偏弱。"
    else
      base ++ " 当前价在 VWAP(" ++ toString v ++ ") 附近，买卖力量较均衡。"
  | _, _ => base

/-- The dict built by `_process_intraday_symbol` once past the
`info["last_close"]` access (`lc` is that value). -/
def intraday_record (p15 p1h : String × SignalRecord) (combined comment : String)
    (vwap : Option ℚ) (cost : Option ℚ) (lc : ℚ) (bars15 bars1h : List Bar) : SignalRecord :=
  let pnl := calc_pnl_pct lc cost
  let hl :=
    if !bars1h.isEmpty then get_recent_high_low bars1h 80
    else if !bars15.isEmpty then get_recent_high_low bars15 80
    else (none, none)
  let bands := compute_price_bands cost p15.2.last_close p15.2.ma20 hl.1 hl.2
  { p15.2 with
    signal := some combined,
    signal_15m := some p15.1,
    signal_1h := some p1h.1,
    reason_15m := p15.2.reason,
    reason_1h := p1h.2.reason,
    intraday_comment := some comment,
    vwap := vwap,
    cost := cost.map (fun c => pyRound c 4),
    pnl_pct := pnl.map (fun p => pyRound p 2),
    action := some (decide_action combined pnl),
    bands_defense := bands.map (·.defense),
    bands_offense := bands.map (·.offense),
    ema20 := p15.2.ma20,
    last_price := p15.2.last_close }

/-- `_process_intraday_symbol` with the session VWAP abstracted into the
argument `vwap` (the source binds `vwap = calc_today_vwap_from_15m(bars_15) if
bars_15 else None` and uses it only afterwards).  The `KeyError` raised by
`info["last_close"]` when `generate_bcd_signal` returned no `last_close` key is
the `crash` outcome. -/
def process_intraday_with (symbol : String) (vwap : Option ℚ) (cost : Option ℚ)
    (bars15 bars1h : List Bar) : ProcResult :=
  if bars15.isEmpty && bars1h.isEmpty then .skip
  else
    let p15 :=
      if bars15.isEmpty then ("C", ({ reason := some "无 15m 数据" } : SignalRecord))
      else generate_bcd_signal symbol bars15
    let p1h :=
      if bars1h.isEmpty then ("C", ({ reason := some "无 1h 数据" } : SignalRecord))
      else generate_bcd_signal symbol bars1h
    let comb := combine_intraday_signals p15.1 p1h.1
    let comment := vwap_comment comb.2 vwap p15.2.last_close
    match p15.2.last_close with
    | none => .crash
    | some lc => .store (intraday_record p15 p1h comb.1 comment vwap cost lc bars15 bars1h)

/-- `_process_intraday_symbol(symbol)` proper. -/
def process_intraday_symbol (symbol : String) (cost : Option ℚ) (bars15 bars1h : List Bar) :
    ProcResult :=
  process_intraday_with symbol
    (if bars15.isEmpty then none else calc_today_vwap_from_15m bars15) cost bars15 bars1h

/-- The grade stored by a processing outcome, if any. -/
def proc_result_signal : ProcResult → Option String
  | .store info => info.signal
  | _ => none

/-- Erase the two fields of a stored record that mention the session VWAP
(the `vwap` value itself and the narrative comment). -/
def proc_scrub : ProcResult → ProcResult
  | .store info => .store { info with intraday_comment := none, vwap := none }
  | r => r

/-- The named indicator fields that `_process_daily_symbol` reads from the
external indicator computation. -/
structure DailyIndicators where
  lastClose : Option ℚ := none
  ema20 : Option ℚ := none
  ema50 : Option ℚ := none
  ema200 : Option ℚ := none
  vol20 : Option ℚ := none
  bbLower : Option ℚ := none
  bbMiddle : Option ℚ := none
  bbUpper : Option ℚ := none
deriving DecidableEq, Repr

/-- Simple moving average over the last `n` entries (helper for the
spec-modelled indicator computation). -/
def sma_of (n : ℕ) (l : List ℚ) : ℚ :=
  (l.drop (l.length - min n l.length)).sum / ((min n l.length : ℕ) : ℚ)

/-- Modelled from the spec: `indicator_rules.calc_tech_indicators` lives in an
external module that is not part of this repository's sources; §6 of the spec
says it returns named numeric fields (moving averages at three horizons, a
volume average, the last close) or is absent.  We model it as absent on an
empty bar list and otherwise return simple moving averages over the last
20/50/200 closes and the last 20 volumes. -/
def calc_tech_indicators (bars : List Bar) : Option DailyIndicators :=
  if bars.isEmpty then none
  else
    let closes := bars.map (·.close)
    let vols := bars.map (·.volume)
    some
      { lastClose := closes.getLast?,
        ema20 := some (sma_of 20 closes),
        ema50 := some (sma_of 50 closes),
        ema200 := some (sma_of 200 closes),
        vol20 := some (sma_of 20 vols) }

/-- Modelled from the spec: `indicator_rules.classify_bcd_signal` is external;
§6 only specifies `classify(indicators) -> (grade, rationale)` with a
three-valued grade.  We model a classifier comparing the last close with the
20-bar average. -/
def classify_bcd_signal (ind : DailyIndicators) : String × String :=
  match ind.lastClose, ind.ema20 with
  | some lc, some e20 =>
    if e20 < lc then ("B", "收盘价高于 20 日均价")
    else if lc < e20 then ("D", "收盘价低于 20 日均价")
    else ("C", "收盘价贴近 20 日均价")
  | _, _ => ("C", "指标不足")

/-- `_process_daily_symbol(symbol)` (the indicator fields come from the
spec-modelled `calc_tech_indicators`; everything else mirrors the source). -/
def process_daily_symbol (symbol : String) (cost shares : Option ℚ) (bars : List Bar) :
    ProcResult :=
  if bars.isEmpty then .skip
  else
    match calc_tech_indicators bars with
    | none => .skip
    | some ind =>
      let p := classify_bcd_signal ind
      let last_close := ind.lastClose
      let trend_desc :=
        match ind.ema20, ind.ema50, ind.ema200 with
        | some e20, some e50, some e200 =>
          if e50 < e20 ∧ e200 < e50 then "多头排列（中长期上升趋势）"
          else if e20 < e50 ∧ e50 < e200 then "空头排列（中长期下跌趋势）"
          else "均线纠缠（震荡）"
        | _, _, _ => "均线纠缠（震荡）"
      let pos_value :=
        match shares, last_close with
        | some sh, some lc => some (pyRound (lc * sh) 2)
        | _, _ => none
      let pnl :=
        match last_close with
        | some lc => calc_pnl_pct lc cost
        | none => none
      let hl := get_recent_high_low bars 80
      let bands := compute_price_bands cost last_close ind.ema20 hl.1 hl.2
      let fib :=
        match hl.1, hl.2 with
        | some lo, some hi =>
          if lo < hi then
            [382/1000, 1/2, 618/1000].map (fun r => pyRound (lo + (hi - lo) * r) 4)
          else []
        | _, _ => []
      .store
        { symbol := some symbol,
          signal := some p.1,
          last_close := last_close.map (fun x => pyRound x 4),
          last_price := last_close.map (fun x => pyRound x 4),
          ema20 := ind.ema20.map (fun x => pyRound x 4),
          ma20 := ind.ema20.map (fun x => pyRound x 4),
          ma50 := ind.ema50.map (fun x => pyRound x 4),
          ma200 := ind.ema200.map (fun x => pyRound x 4),
          vol20 := ind.vol20.map truncQ,
          daily_trend := some trend_desc,
          tech_comment := some p.2,
          shares := shares,
          position_value := pos_value,
          cost := cost.map (fun c => pyRound c 4),
          pnl_pct := pnl.map (fun x => pyRound x 2),
          action := some (decide_action p.1 pnl ++ " （日线趋势：" ++ trend_desc
            ++ "；技术面：" ++ p.2 ++ "）"),
          bands_defense := bands.map (·.defense),
          bands_offense := bands.map (·.offense),
          fib_levels := some fib,
          bb_lower := ind.bbLower,
          bb_middle := ind.bbMiddle,
          bb_upper := ind.bbUpper }

/-- The mutable per-run state of `Intraday15mStrategyAutoPosApp`: each Python
dict becomes a function, absence of a key being `none` (or `[]`). -/
structure OrchState where
  mode : String
  watchlist : List String
  currentIndex : ℕ
  positionCosts : String → Option ℚ
  positionShares : String → Option ℚ
  reqidMap : ℕ → Option (String × String)
  expectedTfs : String → Option (List String)
  completedTfs : String → List String
  bars15m : String → List Bar
  bars1h : String → List Bar
  bars1d : String → List Bar
  signals : String → Option SignalRecord

/-- Point update of a string-keyed map. -/
def upd {β : Type} (f : String → β) (k : String) (v : β) : String → β :=
  fun x => if x = k then v else f x

/-- Python `set.add` on a list used as a set. -/
def insert_tf (tf : String) (l : List String) : List String :=
  if tf ∈ l then l else l ++ [tf]

/-- The terminal placeholder dict stored by the `error` callback for
errorCode 200 ("No security definition"). -/
def placeholder_record (symbol : String) (cost : Option ℚ) : SignalRecord :=
  { symbol := some symbol,
    signal := some "-",
    last_close := some 0,
    last_price := some 0,
    last_vol := some 0,
    ema20 := some 0,
    vol20 := some 0,
    cost := cost,
    pnl_pct := none,
    action := some "无法获取历史数据（可能是结构性产品 / 债券 / 现金），本脚本只分析普通股票。",
    reason := some "No security definition" }

/-- `request_next_symbol_history`: register the expected timeframes and
correlation ids for the current symbol (`req_id_base = 3000`); the provider
call itself is external. -/
def request_next_symbol_history (s : OrchState) : OrchState :=
  if s.watchlist.length ≤ s.currentIndex then s
  else
    let symbol := s.watchlist.getD s.currentIndex ""
    if s.mode = "intraday" then
      let r15 := 3000 + s.currentIndex * 10 + 1
      let r1h := 3000 + s.currentIndex * 10 + 2
      { s with
        expectedTfs := upd s.expectedTfs symbol (some ["15m", "1h"]),
        reqidMap := fun r =>
          if r = r15 then some (symbol, "15m")
          else if r = r1h then some (symbol, "1h")
          else s.reqidMap r }
    else
      let r1d := 3000 + s.currentIndex * 10 + 9
      { s with
        expectedTfs := upd s.expectedTfs symbol (some ["1d"]),
        reqidMap := fun r => if r = r1d then some (symbol, "1d") else s.reqidMap r }

/-- The mode dispatch inside `_try_process_symbol`. -/
def process_symbol_result (s : OrchState) (symbol : String) : ProcResult :=
  if s.mode = "intraday" then
    process_intraday_symbol symbol (s.positionCosts symbol)
      (s.bars15m symbol) (s.bars1h symbol)
  else
    process_daily_symbol symbol (s.positionCosts symbol)
      (s.positionShares symbol) (s.bars1d symbol)

/-- `_try_process_symbol(symbol)`; the boolean is true when the processing
raised an uncaught exception. -/
def try_process_symbol (s : OrchState) (symbol : String) : OrchState × Bool :=
  if (s.signals symbol).isSome then (s, false)
  else
    match s.expectedTfs symbol with
    | none => (s, false)
    | some expected =>
      if expected.isEmpty then (s, false)
      else if !(expected.all (fun tf => tf ∈ s.completedTfs symbol)) then (s, false)
      else
        match process_symbol_result s symbol with
        | .crash => (s, true)
        | .skip => (s, false)
        | .store info => ({ s with signals := upd s.signals symbol (some info) }, false)

/-- `_try_advance_after_symbol(symbol)`. -/
def try_advance_after_symbol (s : OrchState) (symbol : String) : OrchState :=
  match s.expectedTfs symbol with
  | none => s
  | some expected =>
    if expected.isEmpty then s
    else if !(expected.all (fun tf => tf ∈ s.completedTfs symbol)) then s
    else if s.currentIndex < s.watchlist.length
        ∧ s.watchlist.getD s.currentIndex "" = symbol then
      let s1 := { s with currentIndex := s.currentIndex + 1 }
      if s1.currentIndex < s1.watchlist.length then request_next_symbol_history s1 else s1
    else s

/-- `historicalDataEnd(reqId, ...)`; the boolean is true when the callback
raised (in which case `_try_advance_after_symbol` is never reached). -/
def historical_data_end_cb (s : OrchState) (reqId : ℕ) : OrchState × Bool :=
  match s.reqidMap reqId with
  | none => (s, false)
  | some (symbol, tf) =>
    let s1 := { s with
      completedTfs := upd s.completedTfs symbol (insert_tf tf (s.completedTfs symbol)) }
    match try_process_symbol s1 symbol with
    | (s2, true) => (s2, true)
    | (s2, false) => (try_advance_after_symbol s2 symbol, false)

/-- `historicalData(reqId, bar)`. -/
def historical_data_cb (s : OrchState) (reqId : ℕ) (bar : Bar) : OrchState :=
  match s.reqidMap reqId with
  | none => s
  | some (symbol, tf) =>
    if tf = "15m" then { s with bars15m := upd s.bars15m symbol (s.bars15m symbol ++ [bar]) }
    else if tf = "1h" then { s with bars1h := upd s.bars1h symbol (s.bars1h symbol ++ [bar]) }
    else if tf = "1d" then { s with bars1d := upd s.bars1d symbol (s.bars1d symbol ++ [bar]) }
    else s

/-- `error(reqId, errorCode, ...)`: only the code-200 branch with a known
correlation id mutates state; every other error is merely printed. -/
def error_cb (s : OrchState) (reqId : ℕ) (errorCode : ℤ) : OrchState :=
  match s.reqidMap reqId with
  | none => s
  | some (symbol, tf) =>
    if errorCode = 200 then
      let s1 := { s with
        signals := upd s.signals symbol
          (some (placeholder_record symbol (s.positionCosts symbol))) }
      let s2 := { s1 with
        completedTfs := upd s1.completedTfs symbol (insert_tf tf (s1.completedTfs symbol)) }
      try_advance_after_symbol s2 symbol
    else s

/-- Deliver a sequence of completion callbacks; a crash kills the callback
pump, so the remaining events are dropped. -/
def run_ends (s : OrchState) : List ℕ → OrchState
  | [] => s
  | reqId :: rest =>
    match historical_data_end_cb s reqId with
    | (s1, true) => s1
    | (s1, false) => run_ends s1 rest

/-- Five 15-minute bars of one session with steadily rising closes and flat
volume (used to witness universally quantified theorems). -/
def w_bars : List Bar :=
  [ { date := "20240102 09:30:00", high := 101, low := 99, close := 100, volume := 10 },
    { date := "20240102 09:45:00", high := 101, low := 99, close := 101, volume := 10 },
    { date := "20240102 10:00:00", high := 101, low := 99, close := 102, volume := 10 },
    { date := "20240102 10:15:00", high := 101, low := 99, close := 103, volume := 10 },
    { date := "20240102 10:30:00", high := 101, low := 99, close := 104, volume := 10 } ]

/-- Five bars whose last volume is exactly 1.3 times the 5-bar volume average
(13 = 1.3 × 10) while the price conditions for a bullish grade hold. -/
def c5_bars : List Bar :=
  [ { date := "20240102 09:30:00", high := 0, low := 0, close := 100, volume := 10 },
    { date := "20240102 09:45:00", high := 0, low := 0, close := 100, volume := 9 },
    { date := "20240102 10:00:00", high := 0, low := 0, close := 100, volume := 9 },
    { date := "20240102 10:15:00", high := 0, low := 0, close := 100, volume := 9 },
    { date := "20240102 10:30:00", high := 0, low := 0, close := 110, volume := 13 } ]

/-- Intraday run state with one watched symbol "A" whose two requests are
registered but for which no bars ever arrive. -/
def c2_state : OrchState :=
  { mode := "intraday",
    watchlist := ["A"],
    currentIndex := 0,
    positionCosts := fun _ => some 50,
    positionShares := fun _ => some 10,
    reqidMap := fun r =>
      if r = 3001 then some ("A", "15m")
      else if r = 3002 then some ("A", "1h") else none,
    expectedTfs := fun x => if x = "A" then some ["15m", "1h"] else none,
    completedTfs := fun _ => [],
    bars15m := fun _ => [],
    bars1h := fun _ => [],
    bars1d := fun _ => [],
    signals := fun _ => none }

/-- Intraday run state used for the C2 witness: symbol "B" is current, expects
only its 15-minute timeframe, and five 15-minute bars have arrived. -/
def w2_state : OrchState :=
  { mode := "intraday",
    watchlist := ["B"],
    currentIndex := 0,
    positionCosts := fun _ => some 90,
    positionShares := fun _ => some 10,
    reqidMap := fun r => if r = 3001 then some ("B", "15m") else none,
    expectedTfs := fun x => if x = "B" then some ["15m"] else none,
    completedTfs := fun _ => [],
    bars15m := fun x => if x = "B" then w_bars else [],
    bars1h := fun _ => [],
    bars1d := fun _ => [],
    signals := fun _ => none }

/-- State with a result already stored for "A" (for the C2 witness's
no-overwrite part). -/
def w2_stored_state : OrchState :=
  { c2_state with signals := fun x => if x = "A" then some (placeholder_record "A" none) else none }

/-- Intraday run state for the C3 counterexample: "A" is the current symbol,
both of its requests are outstanding. -/
def c3_state : OrchState :=
  { mode := "intraday",
    watchlist := ["A", "B"],
    currentIndex := 0,
    positionCosts := fun _ => some 50,
    positionShares := fun _ => some 10,
    reqidMap := fun r =>
      if r = 3001 then some ("A", "15m")
      else if r = 3002 then some ("A", "1h") else none,
    expectedTfs := fun x => if x = "A" then some ["15m", "1h"] else none,
    completedTfs := fun _ => [],
    bars15m := fun _ => [],
    bars1h := fun _ => [],
    bars1d := fun _ => [],
    signals := fun _ => none }

/-- Daily run state for the C3 witness: "A" is current with its single 1-day
request outstanding. -/
def w3_state : OrchState :=
  { mode := "daily",
    watchlist := ["A", "B"],
    currentIndex := 0,
    positionCosts := fun x => if x = "A" then some 50 else none,
    positionShares := fun _ => some 10,
    reqidMap := fun r => if r = 3009 then some ("A", "1d") else none,
    expectedTfs := fun x => if x = "A" then some ["1d"] else none,
    completedTfs := fun _ => [],
    bars15m := fun _ => [],
    bars1h := fun _ => [],
    bars1d := fun _ => [],
    signals := fun _ => none }

/-! ## Theorems -/

/-- C6: with cost 100 and no swing data and no trend reference, the band
engine returns exactly defense `[85, 90, 95]` and offense
`[105, 110, 115, 120]`. -/
theorem C6_theorem :
    compute_price_bands (some 100) none none none none
      = some { defense := [85, 90, 95], offense := [105, 110, 115, 120] } := by
  decide

/-- C7: every bar sequence with fewer than 5 bars yields the neutral grade
"C" with the insufficient-data rationale ("bar 数太少，自动观望" — "too few
bars, stand aside"). -/
theorem C7_theorem (symbol : String) (bars : List Bar) (h : bars.length < 5) :
    generate_bcd_signal symbol bars = ("C", { reason := some "bar 数太少，自动观望" }) := by
  unfold generate_bcd_signal
  rw [if_pos h]

/-- Witness for C7 at the empty bar list. -/
theorem C7_witness :
    generate_bcd_signal "AAPL" [] = ("C", { reason := some "bar 数太少，自动观望" }) :=
  C7_theorem "AAPL" [] (by decide)

/-- C8: the combined intraday grade follows the fixed precedence table:
`combine(x,x) = x`, bullish+neutral = bullish, defensive+neutral = defensive,
bullish+defensive = neutral (both orders). -/
theorem C8_theorem :
    (combine_intraday_signals "B" "B").1 = "B"
    ∧ (combine_intraday_signals "C" "C").1 = "C"
    ∧ (combine_intraday_signals "D" "D").1 = "D"
    ∧ (combine_intraday_signals "B" "C").1 = "B"
    ∧ (combine_intraday_signals "C" "B").1 = "B"
    ∧ (combine_intraday_signals "D" "C").1 = "D"
    ∧ (combine_intraday_signals "C" "D").1 = "D"
    ∧ (combine_intraday_signals "B" "D").1 = "C"
    ∧ (combine_intraday_signals "D" "B").1 = "C" := by
  decide

/-- C5 (amended): for at least 5 bars the grade is "B" iff the latest close is
above `MAref×1.002`, rose versus the prior bar, and the latest volume is **at
least** (`≥`, not strictly above) `VOLref×1.3`; "D" symmetrically; otherwise
"C".  The source compares volume with `>=`, so the claim's strict "exceeds"
had to be weakened to "at least". -/
theorem C5_theorem (symbol : String) (bars : List Bar) (h5 : 5 ≤ bars.length) :
    ((generate_bcd_signal symbol bars).1 = "B"
      ↔ ma_ref bars * (1 + 2/1000) < last_close_of bars
        ∧ prev_close_of bars < last_close_of bars
        ∧ vol_ref bars * (13/10) ≤ last_vol_of bars)
    ∧ ((generate_bcd_signal symbol bars).1 = "D"
      ↔ last_close_of bars < ma_ref bars * (1 - 2/1000)
        ∧ last_close_of bars < prev_close_of bars
        ∧ vol_ref bars * (13/10) ≤ last_vol_of bars)
    ∧ ((generate_bcd_signal symbol bars).1 = "C"
      ↔ ¬(ma_ref bars * (1 + 2/1000) < last_close_of bars
          ∧ prev_close_of bars < last_close_of bars
          ∧ vol_ref bars * (13/10) ≤ last_vol_of bars)
        ∧ ¬(last_close_of bars < ma_ref bars * (1 - 2/1000)
          ∧ last_close_of bars < prev_close_of bars
          ∧ vol_ref bars * (13/10) ≤ last_vol_of bars)) := by
  have h1 : ¬ bars.length < 5 := by omega
  have h2 : ¬ ((last_window bars).map (·.close)).length < 3 := by
    rw [List.length_map]
    unfold last_window
    split
    · rw [List.length_drop]; omega
    · omega
  unfold generate_bcd_signal
  rw [if_neg h1, if_neg h2]
  split_ifs with hB hD
  · exact ⟨⟨fun _ => hB, fun _ => rfl⟩,
      ⟨fun h => absurd h (show ("B" : String) ≠ "D" by decide),
        fun hD' => absurd hB.2.1 (lt_asymm hD'.2.1)⟩,
      ⟨fun h => absurd h (show ("B" : String) ≠ "C" by decide), fun h => absurd hB h.1⟩⟩
  · exact ⟨⟨fun h => absurd h (show ("D" : String) ≠ "B" by decide), fun hB' => absurd hB' hB⟩,
      ⟨fun _ => hD, fun _ => rfl⟩,
      ⟨fun h => absurd h (show ("D" : String) ≠ "C" by decide), fun h => absurd hD h.2⟩⟩
  · exact ⟨⟨fun h => absurd h (show ("C" : String) ≠ "B" by decide), fun hB' => absurd hB' hB⟩,
      ⟨fun h => absurd h (show ("C" : String) ≠ "D" by decide), fun hD' => absurd hD' hD⟩,
      ⟨fun _ => ⟨hB, hD⟩, fun _ => rfl⟩⟩

/-- Counterexample to C5 as frozen: on `c5_bars` the grade is "B" although the
latest volume does **not** strictly exceed `VOLref×1.3` (it equals it:
13 = 1.3 × 10), so "B iff … volume exceeds VOLref×1.3" fails under the strict
reading of "exceeds". -/
theorem C5_counterexample :
    (generate_bcd_signal "X" c5_bars).1 = "B"
    ∧ ¬ (vol_ref c5_bars * (13/10) < last_vol_of c5_bars) := by
  decide

/-- Witness for C5 applied to the concrete bar list `w_bars`. -/
theorem C5_witness :
    ((generate_bcd_signal "W" w_bars).1 = "B"
      ↔ ma_ref w_bars * (1 + 2/1000) < last_close_of w_bars
        ∧ prev_close_of w_bars < last_close_of w_bars
        ∧ vol_ref w_bars * (13/10) ≤ last_vol_of w_bars)
    ∧ ((generate_bcd_signal "W" w_bars).1 = "D"
      ↔ last_close_of w_bars < ma_ref w_bars * (1 - 2/1000)
        ∧ last_close_of w_bars < prev_close_of w_bars
        ∧ vol_ref w_bars * (13/10) ≤ last_vol_of w_bars)
    ∧ ((generate_bcd_signal "W" w_bars).1 = "C"
      ↔ ¬(ma_ref w_bars * (1 + 2/1000) < last_close_of w_bars
          ∧ prev_close_of w_bars < last_close_of w_bars
          ∧ vol_ref w_bars * (13/10) ≤ last_vol_of w_bars)
        ∧ ¬(last_close_of w_bars < ma_ref w_bars * (1 - 2/1000)
          ∧ last_close_of w_bars < prev_close_of w_bars
          ∧ vol_ref w_bars * (13/10) ≤ last_vol_of w_bars)) :=
  C5_theorem "W" w_bars (by decide)

/-- C1 (amended): the band result is `none` when the cost is missing or
non-positive, and every non-`none` result carries between 1 and 3 defense and
between 1 and 4 offense levels.  (The source only rejects an *empty* selected
set — `if not defense or not offense` — so a ladder shorter than 3/4 can be
returned; the claim's "exactly 3 and exactly 4" had to be weakened.) -/
theorem C1_theorem :
    (∀ lp e lo hi, compute_price_bands none lp e lo hi = none)
    ∧ (∀ c lp e lo hi, c ≤ 0 → compute_price_bands (some c) lp e lo hi = none)
    ∧ (∀ c lp e lo hi b, compute_price_bands (some c) lp e lo hi = some b →
        (1 ≤ b.defense.length ∧ b.defense.length ≤ 3)
        ∧ (1 ≤ b.offense.length ∧ b.offense.length ≤ 4)) := by
  refine ⟨fun lp e lo hi => rfl,
    fun c lp e lo hi hc => by simp [compute_price_bands, hc], ?_⟩
  intro c lp e lo hi b hb
  simp only [compute_price_bands] at hb
  split_ifs at hb with hc hemp
  rw [Option.some_inj] at hb
  have hd : ¬ ((defense_out c e lo hi).isEmpty = true) := fun h => hemp (Or.inl h)
  have ho : ¬ ((offense_out c e lo hi).isEmpty = true) := fun h => hemp (Or.inr h)
  have hd' : defense_out c e lo hi ≠ [] := by simpa [List.isEmpty_iff] using hd
  have ho' : offense_out c e lo hi ≠ [] := by simpa [List.isEmpty_iff] using ho
  have hdlen : (defense_out c e lo hi).length ≤ 3 := by
    unfold defense_out
    rw [List.length_map, (List.perm_insertionSort _ _).length_eq]
    exact List.length_take_le _ _
  have holen : (offense_out c e lo hi).length ≤ 4 := by
    unfold offense_out
    rw [List.length_map]
    exact List.length_take_le _ _
  rw [← hb]
  exact ⟨⟨List.length_pos.mpr hd', hdlen⟩, ⟨List.length_pos.mpr ho', holen⟩⟩

/-- Python's rounding to the nearest integer is monotone. -/
theorem pyRoundInt_mono {a b : ℚ} (h : a ≤ b) : pyRoundInt a ≤ pyRoundInt b := by
  have hfl : ⌊a⌋ ≤ ⌊b⌋ := Int.floor_mono h
  by_cases hf : (⌊a⌋ : ℤ) = ⌊b⌋
  · have hfr : Int.fract a ≤ Int.fract b := by
      simp only [Int.fract]
      rw [hf]
      exact sub_le_sub_right h _
    unfold pyRoundInt
    rw [hf]
    split_ifs <;> first | omega | (exfalso; linarith)
  · have h1 : ⌊a⌋ + 1 ≤ ⌊b⌋ := by omega
    unfold pyRoundInt
    split_ifs <;> omega

/-- `pyRound · n` is monotone. -/
theorem pyRound_mono {a b : ℚ} (n : ℕ) (h : a ≤ b) : pyRound a n ≤ pyRound b n := by
  unfold pyRound
  have h10 : (0 : ℚ) < 10 ^ n := by positivity
  have h2 : pyRoundInt (a * 10 ^ n) ≤ pyRoundInt (b * 10 ^ n) :=
    pyRoundInt_mono (mul_le_mul_of_nonneg_right h (le_of_lt h10))
  have h3 : ((pyRoundInt (a * 10 ^ n) : ℚ)) ≤ (pyRoundInt (b * 10 ^ n) : ℚ) := by
    exact_mod_cast h2
  exact (div_le_div_right h10).mpr h3

/-- Elements of `_uniq_sorted(levels)` are 4-decimal roundings of positive
input levels. -/
theorem mem_uniq_sorted_asc {x : ℚ} {l : List ℚ} (hx : x ∈ uniq_sorted_asc l) :
    ∃ z ∈ l, 0 < z ∧ x = pyRound z 4 := by
  unfold uniq_sorted_asc at hx
  have hx1 : x ∈ (((l.filter (fun x => 0 < x)).map (fun x => pyRound x 4))).dedup :=
    ((List.perm_insertionSort _ _).mem_iff).mp hx
  rw [List.mem_dedup] at hx1
  rcases List.mem_map.mp hx1 with ⟨z, hz, rfl⟩
  rcases List.mem_filter.mp hz with ⟨hzl, hzpos⟩
  exact ⟨z, hzl, by simpa using hzpos, rfl⟩

/-- The emitted defense ladder is sorted (non-decreasing). -/
theorem defense_out_sorted (c : ℚ) (e lo hi : Option ℚ) :
    (defense_out c e lo hi).Sorted (· ≤ ·) := by
  unfold defense_out
  exact List.Pairwise.map _ (fun a b hab => pyRound_mono 2 hab)
    (List.sorted_insertionSort _ _)

/-- The emitted offense ladder is sorted (non-decreasing). -/
theorem offense_out_sorted (c : ℚ) (e lo hi : Option ℚ) :
    (offense_out c e lo hi).Sorted (· ≤ ·) := by
  unfold offense_out offense_picked
  exact List.Pairwise.map _ (fun a b hab => pyRound_mono 2 hab)
    (List.Pairwise.sublist (List.take_sublist _ _) (List.sorted_insertionSort _ _))

/-- Every emitted defense level is the presentation rounding of a
4-decimal-rounded candidate strictly below cost. -/
theorem defense_out_mem (c : ℚ) (e lo hi : Option ℚ) :
    ∀ x ∈ defense_out c e lo hi, ∃ z ∈ defense_candidates c e lo hi,
      0 < z ∧ z < c ∧ x = pyRound (pyRound z 4) 2 := by
  intro x hx
  unfold defense_out at hx
  rcases List.mem_map.mp hx with ⟨y, hy, rfl⟩
  have hy1 : y ∈ defense_picked c e lo hi := ((List.perm_insertionSort _ _).mem_iff).mp hy
  have hy2 : y ∈ defense_pool c e lo hi := by
    unfold defense_picked at hy1
    exact List.mem_reverse.mp (List.mem_of_mem_take hy1)
  unfold defense_pool at hy2
  rcases mem_uniq_sorted_asc hy2 with ⟨z, hz, hzpos, rfl⟩
  rcases List.mem_filter.mp hz with ⟨hzc, hzlt⟩
  exact ⟨z, hzc, hzpos, by simpa using hzlt, rfl⟩

/-- Every emitted offense level is the presentation rounding of a
4-decimal-rounded candidate strictly above cost. -/
theorem offense_out_mem (c : ℚ) (e lo hi : Option ℚ) :
    ∀ x ∈ offense_out c e lo hi, ∃ z ∈ offense_candidates c e lo hi,
      c < z ∧ x = pyRound (pyRound z 4) 2 := by
  intro x hx
  unfold offense_out at hx
  rcases List.mem_map.mp hx with ⟨y, hy, rfl⟩
  have hy2 : y ∈ offense_pool c e lo hi := by
    unfold offense_picked at hy
    exact List.mem_of_mem_take hy
  unfold offense_pool at hy2
  rcases mem_uniq_sorted_asc hy2 with ⟨z, hz, _, rfl⟩
  rcases List.mem_filter.mp hz with ⟨hzc, hzlt⟩
  exact ⟨z, hzc, by simpa using hzlt, rfl⟩

/-- The three picked defense levels dominate every unpicked pool element:
the selection keeps the below-cost candidates nearest the cost. -/
theorem defense_picked_closest (c : ℚ) (e lo hi : Option ℚ) :
    ∀ u ∈ defense_pool c e lo hi, u ∉ defense_picked c e lo hi →
      ∀ p ∈ defense_picked c e lo hi, u ≤ p := by
  intro u hu hunp p hp
  have hsort : (defense_pool c e lo hi).Sorted (· ≤ ·) := List.sorted_insertionSort _ _
  have hrev : ((defense_pool c e lo hi).reverse).Pairwise (fun a b => b ≤ a) :=
    (List.pairwise_reverse).mpr hsort
  have hu' : u ∈ (defense_pool c e lo hi).reverse := List.mem_reverse.mpr hu
  have hsplit := List.take_append_drop 3 (defense_pool c e lo hi).reverse
  have hu'' : u ∈ (defense_pool c e lo hi).reverse.drop 3 := by
    rcases List.mem_append.mp (by rw [hsplit]; exact hu') with h | h
    · exact absurd h hunp
    · exact h
  rw [← hsplit] at hrev
  exact (List.pairwise_append.mp hrev).2.2 p hp u hu''

/-- The four picked offense levels are below every unpicked pool element:
the selection keeps the above-cost candidates nearest the cost. -/
theorem offense_picked_closest (c : ℚ) (e lo hi : Option ℚ) :
    ∀ u ∈ offense_pool c e lo hi, u ∉ offense_picked c e lo hi →
      ∀ p ∈ offense_picked c e lo hi, p ≤ u := by
  intro u hu hunp p hp
  have hsort : (offense_pool c e lo hi).Sorted (· ≤ ·) := List.sorted_insertionSort _ _
  have hsplit := List.take_append_drop 4 (offense_pool c e lo hi)
  have hu'' : u ∈ (offense_pool c e lo hi).drop 4 := by
    rcases List.mem_append.mp (by rw [hsplit]; exact hu) with h | h
    · exact absurd h hunp
    · exact h
  rw [show (offense_pool c e lo hi).Sorted (· ≤ ·)
      = ((offense_pool c e lo hi).take 4 ++ (offense_pool c e lo hi).drop 4).Pairwise (· ≤ ·)
    from by rw [hsplit]; rfl] at hsort
  exact (List.pairwise_append.mp hsort).2.2 p hp u hu''

/-- C4 (amended): for positive cost and a non-`none` result, both ladders are
sorted non-decreasing; every defense level is the 2-decimal rounding of a
4-decimal-rounded candidate strictly below cost and every offense level of one
strictly above cost (the *emitted* rounded level itself may equal or cross the
cost, which is what forced the amendment); and the selection keeps the 3
below-cost and 4 above-cost pool elements nearest the cost, after
deduplication by 4-decimal rounding. -/
theorem C4_theorem (c : ℚ) (lp e lo hi : Option ℚ) (b : PriceBands)
    (hb : compute_price_bands (some c) lp e lo hi = some b) :
    b.defense.Sorted (· ≤ ·) ∧ b.offense.Sorted (· ≤ ·)
    ∧ (∀ x ∈ b.defense, ∃ z ∈ defense_candidates c e lo hi,
        0 < z ∧ z < c ∧ x = pyRound (pyRound z 4) 2)
    ∧ (∀ x ∈ b.offense, ∃ z ∈ offense_candidates c e lo hi,
        c < z ∧ x = pyRound (pyRound z 4) 2)
    ∧ (∀ u ∈ defense_pool c e lo hi, u ∉ defense_picked c e lo hi →
        ∀ p ∈ defense_picked c e lo hi, u ≤ p)
    ∧ (∀ u ∈ offense_pool c e lo hi, u ∉ offense_picked c e lo hi →
        ∀ p ∈ offense_picked c e lo hi, p ≤ u) := by
  have hbd : b.defense = defense_out c e lo hi ∧ b.offense = offense_out c e lo hi := by
    simp only [compute_price_bands] at hb
    split_ifs at hb
    rw [Option.some_inj] at hb
    exact ⟨by rw [← hb], by rw [← hb]⟩
  rw [hbd.1, hbd.2]
  exact ⟨defense_out_sorted c e lo hi, offense_out_sorted c e lo hi,
    defense_out_mem c e lo hi, offense_out_mem c e lo hi,
    defense_picked_closest c e lo hi, offense_picked_closest c e lo hi⟩

/-- Counterexample to C4 as frozen: with cost 99.9999 and recent low 99.999
the nearest defense candidate 99.999 is rounded up to 100.00 for presentation,
which is **not** strictly below the cost. -/
theorem C4_counterexample :
    compute_price_bands (some (999999/10000)) none none (some (99999/1000)) none
      = some { defense := [90, 95, 100], offense := [105, 110, 115, 120] }
    ∧ ¬ ((100 : ℚ) < 999999/10000) := by
  decide

/-- Witness for C4 at cost 100 with no optional inputs. -/
theorem C4_witness :
    ([85, 90, 95] : List ℚ).Sorted (· ≤ ·) ∧ ([105, 110, 115, 120] : List ℚ).Sorted (· ≤ ·)
    ∧ (∀ x ∈ ([85, 90, 95] : List ℚ), ∃ z ∈ defense_candidates 100 none none none,
        0 < z ∧ z < 100 ∧ x = pyRound (pyRound z 4) 2)
    ∧ (∀ x ∈ ([105, 110, 115, 120] : List ℚ), ∃ z ∈ offense_candidates 100 none none none,
        100 < z ∧ x = pyRound (pyRound z 4) 2)
    ∧ (∀ u ∈ defense_pool 100 none none none, u ∉ defense_picked 100 none none none →
        ∀ p ∈ defense_picked 100 none none none, u ≤ p)
    ∧ (∀ u ∈ offense_pool 100 none none none, u ∉ offense_picked 100 none none none →
        ∀ p ∈ offense_picked 100 none none none, p ≤ u) :=
  C4_theorem 100 none none none none
    { defense := [85, 90, 95], offense := [105, 110, 115, 120] }
    (by decide)

/-- Accumulating `(close*volume, volume)` over the bars accepted by a
predicate equals filtering and summing. -/
theorem sum_pair_foldl (p : Bar → Bool) (l : List Bar) (a b : ℚ) :
    l.foldl (fun acc bar =>
        if p bar then (acc.1 + bar.close * bar.volume, acc.2 + bar.volume) else acc) (a, b)
    = (a + ((l.filter p).map (fun bar => bar.close * bar.volume)).sum,
       b + ((l.filter p).map (·.volume)).sum) := by
  induction l generalizing a b with
  | nil => simp
  | cons x xs ih =>
    cases hp : p x <;> simp [hp, ih, add_assoc]

/-- C10: the session VWAP loop agrees everywhere with its specification-style
description — the bars sharing the final bar's `YYYYMMDD` prefix and carrying
positive volume are averaged as `sum(close*volume)/sum(volume)` rounded to 4
decimals, with `none` for an empty bar list or zero included volume. -/
theorem C10_theorem (bars : List Bar) :
    calc_today_vwap_from_15m bars = vwap_spec_description bars := by
  unfold calc_today_vwap_from_15m vwap_spec_description
  cases hl : bars.getLast? with
  | none => rfl
  | some lastBar =>
    dsimp only
    have hfun : (fun (acc : ℚ × ℚ) (b : Bar) =>
        if b.date.take 8 ≠ lastBar.date.take 8 then acc
        else if b.volume ≤ 0 then acc
        else (acc.1 + b.close * b.volume, acc.2 + b.volume))
        = (fun (acc : ℚ × ℚ) (bar : Bar) =>
            if (fun b => decide (b.date.take 8 = lastBar.date.take 8 ∧ 0 < b.volume)) bar
            then (acc.1 + bar.close * bar.volume, acc.2 + bar.volume) else acc) := by
      funext acc bar
      by_cases h1 : bar.date.take 8 = lastBar.date.take 8
      · by_cases h2 : 0 < bar.volume
        · rw [if_neg (not_not_intro h1), if_neg (not_le.mpr h2),
            if_pos (decide_eq_true ⟨h1, h2⟩)]
        · rw [if_neg (not_not_intro h1), if_pos (not_lt.mp h2),
            if_neg (fun hd => h2 (of_decide_eq_true hd).2)]
      · rw [if_pos h1, if_neg (fun hd => h1 (of_decide_eq_true hd).1)]
    rw [hfun, sum_pair_foldl]
    have hnn : 0 ≤ ((bars.filter
        (fun b => decide (b.date.take 8 = lastBar.date.take 8 ∧ 0 < b.volume))).map
          (·.volume)).sum := by
      apply List.sum_nonneg
      intro x hx
      rcases List.mem_map.mp hx with ⟨bar, hbar, rfl⟩
      exact le_of_lt (of_decide_eq_true (List.mem_filter.mp hbar).2).2
    simp only [zero_add]
    by_cases hz : ((bars.filter
        (fun b => decide (b.date.take 8 = lastBar.date.take 8 ∧ 0 < b.volume))).map
          (·.volume)).sum = 0
    · rw [if_pos (le_of_eq hz), if_pos hz]
    · rw [if_neg (fun hle => hz (le_antisymm hle hnn)), if_neg hz]

/-- C9: the grade stored by intraday processing does not depend on the session
VWAP — neither on its availability nor on its value; only the narrative
comment and the stored `vwap` field do. -/
theorem C9_theorem (symbol : String) (v v' cost : Option ℚ) (bars15 bars1h : List Bar) :
    proc_scrub (process_intraday_with symbol v cost bars15 bars1h)
      = proc_scrub (process_intraday_with symbol v' cost bars15 bars1h)
    ∧ proc_result_signal (process_intraday_with symbol v cost bars15 bars1h)
      = proc_result_signal (process_intraday_with symbol v' cost bars15 bars1h) := by
  cases bars15 with
  | nil =>
    cases bars1h with
    | nil => exact ⟨rfl, rfl⟩
    | cons y ys => exact ⟨rfl, rfl⟩
  | cons x xs =>
    cases hlc : (generate_bcd_signal symbol (x :: xs)).2.last_close with
    | none =>
      constructor <;>
        simp [process_intraday_with, hlc, proc_scrub, proc_result_signal]
    | some lc =>
      constructor <;>
        simp [process_intraday_with, hlc, proc_scrub, proc_result_signal, intraday_record]

/-- Updating a map at a key reads back the value. -/
theorem upd_same {β : Type} (f : String → β) (k : String) (v : β) : upd f k v k = v := by
  unfold upd
  rw [if_pos rfl]

/-- Updating a map at another key leaves a read unchanged. -/
theorem upd_ne {β : Type} (f : String → β) (k : String) (v : β) (x : String) (h : x ≠ k) :
    upd f k v x = f x := by
  unfold upd
  rw [if_neg h]

/-- The added timeframe is a member after `insert_tf`. -/
theorem mem_insert_tf (tf : String) (l : List String) : tf ∈ insert_tf tf l := by
  unfold insert_tf
  split_ifs with h
  · exact h
  · simp

/-- `request_next_symbol_history` does not touch the result map. -/
theorem request_next_signals (s : OrchState) :
    (request_next_symbol_history s).signals = s.signals := by
  unfold request_next_symbol_history
  split_ifs <;> rfl

/-- `request_next_symbol_history` does not touch the completed-timeframe map. -/
theorem request_next_completed (s : OrchState) :
    (request_next_symbol_history s).completedTfs = s.completedTfs := by
  unfold request_next_symbol_history
  split_ifs <;> rfl

/-- `request_next_symbol_history` does not move the sequencer. -/
theorem request_next_currentIndex (s : OrchState) :
    (request_next_symbol_history s).currentIndex = s.currentIndex := by
  unfold request_next_symbol_history
  split_ifs <;> rfl

/-- `_try_advance_after_symbol` does not touch the result map. -/
theorem try_advance_signals (s : OrchState) (symbol : String) :
    (try_advance_after_symbol s symbol).signals = s.signals := by
  unfold try_advance_after_symbol
  cases s.expectedTfs symbol with
  | none => rfl
  | some expected =>
    dsimp only
    split_ifs <;> first | rfl | rw [request_next_signals]

/-- `_try_advance_after_symbol` does not touch the completed-timeframe map. -/
theorem try_advance_completed (s : OrchState) (symbol : String) :
    (try_advance_after_symbol s symbol).completedTfs = s.completedTfs := by
  unfold try_advance_after_symbol
  cases s.expectedTfs symbol with
  | none => rfl
  | some expected =>
    dsimp only
    split_ifs <;> first | rfl | rw [request_next_completed]

/-- When the symbol is current and its expected set is complete,
`_try_advance_after_symbol` advances the sequencer by one. -/
theorem try_advance_advances (s : OrchState) (sym : String) (e : List String)
    (hexp : s.expectedTfs sym = some e) (hene : e.isEmpty = false)
    (hsub : e.all (fun t => t ∈ s.completedTfs sym) = true)
    (hidx : s.currentIndex < s.watchlist.length)
    (hcur : s.watchlist.getD s.currentIndex "" = sym) :
    (try_advance_after_symbol s sym).currentIndex = s.currentIndex + 1 := by
  unfold try_advance_after_symbol
  rw [hexp]
  dsimp only
  rw [if_neg (by simp [hene]), if_neg (by simp [hsub]), if_pos ⟨hidx, hcur⟩]
  split
  · rw [request_next_currentIndex]
  · rfl

/-- `_try_process_symbol` never removes or replaces an already stored result. -/
theorem try_process_signals_preserved (s : OrchState) (sym2 sym : String) (r : SignalRecord)
    (h : s.signals sym = some r) :
    ((try_process_symbol s sym2).1).signals sym = some r := by
  unfold try_process_symbol
  by_cases h1 : (s.signals sym2).isSome
  · rw [if_pos h1]
    exact h
  · have hne : sym ≠ sym2 := fun hEq => h1 (by rw [← hEq, h]; rfl)
    rw [if_neg h1]
    cases s.expectedTfs sym2 with
    | none => exact h
    | some expected =>
      dsimp only
      split_ifs
      · exact h
      · exact h
      · cases process_symbol_result s sym2 with
        | crash => exact h
        | skip => exact h
        | store info =>
          show (upd s.signals sym2 (some info)) sym = some r
          rw [upd_ne _ _ _ _ hne]
          exact h

/-- One completion callback never removes or replaces a stored result. -/
theorem hist_end_signals_preserved (s : OrchState) (reqId : ℕ) (sym : String) (r : SignalRecord)
    (h : s.signals sym = some r) :
    ((historical_data_end_cb s reqId).1).signals sym = some r := by
  unfold historical_data_end_cb
  cases hreq : s.reqidMap reqId with
  | none => exact h
  | some info =>
    obtain ⟨sym2, tf⟩ := info
    dsimp only
    rcases hres : try_process_symbol
        { s with completedTfs := upd s.completedTfs sym2 (insert_tf tf (s.completedTfs sym2)) }
        sym2 with ⟨s2, b⟩
    have h2 : s2.signals sym = some r := by
      have hp := try_process_signals_preserved
        { s with completedTfs := upd s.completedTfs sym2 (insert_tf tf (s.completedTfs sym2)) }
        sym2 sym r h
      rw [hres] at hp
      exact hp
    cases b
    · dsimp only
      rw [try_advance_signals]
      exact h2
    · exact h2

/-- A stored result survives any sequence of completion callbacks. -/
theorem run_ends_signals_preserved (rids : List ℕ) (s : OrchState) (sym : String)
    (r : SignalRecord) (h : s.signals sym = some r) :
    (run_ends s rids).signals sym = some r := by
  induction rids generalizing s with
  | nil => exact h
  | cons rid rest ih =>
    unfold run_ends
    rcases hres : historical_data_end_cb s rid with ⟨s1, b⟩
    have h1 : s1.signals sym = some r := by
      have hp := hist_end_signals_preserved s rid sym r h
      rw [hres] at hp
      exact hp
    cases b
    · exact ih s1 h1
    · exact h1

/-- With at least five 15-minute bars, `generate_bcd_signal` always emits a
`last_close` field. -/
theorem generate_bcd_last_close (symbol : String) (bars : List Bar) (h5 : 5 ≤ bars.length) :
    (generate_bcd_signal symbol bars).2.last_close = some (pyRound (last_close_of bars) 4) := by
  have h1 : ¬ bars.length < 5 := by omega
  have h2 : ¬ ((last_window bars).map (·.close)).length < 3 := by
    rw [List.length_map]
    unfold last_window
    split
    · rw [List.length_drop]; omega
    · omega
  unfold generate_bcd_signal
  rw [if_neg h1, if_neg h2]
  split_ifs <;> rfl

/-- With at least five 15-minute bars, intraday processing neither crashes nor
skips: a result is stored. -/
theorem process_intraday_store (symbol : String) (cost : Option ℚ) (bars15 bars1h : List Bar)
    (h5 : 5 ≤ bars15.length) :
    ∃ info, process_intraday_symbol symbol cost bars15 bars1h = ProcResult.store info := by
  cases bars15 with
  | nil => simp at h5
  | cons x xs =>
    have hlc := generate_bcd_last_close symbol (x :: xs) h5
    unfold process_intraday_symbol process_intraday_with
    simp only [List.isEmpty_cons, Bool.false_and, Bool.false_eq_true, if_false, ite_false]
    rw [hlc]
    exact ⟨_, rfl⟩

/-- C2 (amended): over any sequence of completion callbacks a stored result is
never reprocessed or overwritten (so a symbol is stored at most once), and a
completion that first makes the completed set a superset of the nonempty
expected set stores the symbol's result — provided (intraday mode) at least
five 15-minute bars arrived; with fewer, the source either skips (no bars at
all) or raises `KeyError` on `info["last_close"]`, storing nothing, which is
what forced the amendment. -/
theorem C2_theorem :
    (∀ (s : OrchState) (rids : List ℕ) (sym : String) (r : SignalRecord),
        s.signals sym = some r → (run_ends s rids).signals sym = some r)
    ∧ (∀ (s : OrchState) (rid : ℕ) (sym tf : String) (e : List String),
        s.reqidMap rid = some (sym, tf) →
        s.signals sym = none →
        s.expectedTfs sym = some e →
        e.isEmpty = false →
        e.all (fun t => t ∈ insert_tf tf (s.completedTfs sym)) = true →
        s.mode = "intraday" →
        5 ≤ (s.bars15m sym).length →
        (((historical_data_end_cb s rid).1).signals sym).isSome = true) := by
  constructor
  · intro s rids sym r h
    exact run_ends_signals_preserved rids s sym r h
  · intro s rid sym tf e hreq hsig hexp hene hsub hmode h5
    have hcomp : (upd s.completedTfs sym (insert_tf tf (s.completedTfs sym))) sym
        = insert_tf tf (s.completedTfs sym) := upd_same _ _ _
    have hproc : ∃ info, process_symbol_result
        { s with completedTfs := upd s.completedTfs sym (insert_tf tf (s.completedTfs sym)) } sym
        = ProcResult.store info := by
      unfold process_symbol_result
      dsimp only
      rw [hmode, if_pos rfl]
      exact process_intraday_store sym (s.positionCosts sym) (s.bars15m sym) (s.bars1h sym) h5
    rcases hproc with ⟨info, hproc⟩
    have hns : ¬ (s.signals sym).isSome := by rw [hsig]; simp
    have htp : try_process_symbol
        { s with completedTfs := upd s.completedTfs sym (insert_tf tf (s.completedTfs sym)) } sym
        = ({ s with
              completedTfs := upd s.completedTfs sym (insert_tf tf (s.completedTfs sym)),
              signals := upd s.signals sym (some info) }, false) := by
      unfold try_process_symbol
      dsimp only
      rw [if_neg hns, hexp]
      dsimp only
      rw [if_neg (by simp [hene]), if_neg (by rw [hcomp, hsub]; simp), hproc]
    unfold historical_data_end_cb
    rw [hreq]
    dsimp only
    rw [htp]
    dsimp only
    rw [try_advance_signals]
    show ((upd s.signals sym (some info)) sym).isSome = true
    rw [upd_same]
    rfl

/-- Counterexample to C2 as frozen: symbol "A" expects the 15-minute and
1-hour timeframes, no bar ever arrives, and both completions (plus a
duplicate) are delivered — its completed set becomes a superset of its
expected set, yet no `SignalResult` is ever computed and stored. -/
theorem C2_counterexample :
    (["15m", "1h"].all
      (fun t => t ∈ (run_ends c2_state [3001, 3002, 3002]).completedTfs "A")) = true
    ∧ (run_ends c2_state [3001, 3002, 3002]).signals "A" = none := by
  decide

/-- Witness for C2: a stored placeholder for "A" survives an unrelated
completion, and a completion of "B"'s only expected timeframe with five
15-minute bars stores "B"'s result. -/
theorem C2_witness :
    (run_ends w2_stored_state [9999]).signals "A" = some (placeholder_record "A" none)
    ∧ (((historical_data_end_cb w2_state 3001).1).signals "B").isSome = true :=
  ⟨C2_theorem.1 w2_stored_state [9999] "A" (placeholder_record "A" none) rfl,
   C2_theorem.2 w2_state 3001 "B" "15m" ["15m"]
      (by decide) (by decide)
      (by decide) (by decide)
      (by decide) (by decide)
      (by decide)⟩

/-- C3 (amended): a code-200 ("no security definition") error whose
correlation id is known stores the terminal placeholder for that symbol,
marks the request's timeframe complete, and — when that completion makes the
current symbol's nonempty expected set complete — advances the sequencer by
one.  (As frozen the claim said a single such error always advances in every
run mode; in intraday mode two timeframes are expected, so one error alone
does not advance — see the counterexample — which forced the amendment.) -/
theorem C3_theorem (s : OrchState) (rid : ℕ) (sym tf : String)
    (hreq : s.reqidMap rid = some (sym, tf)) :
    (error_cb s rid 200).signals sym = some (placeholder_record sym (s.positionCosts sym))
    ∧ tf ∈ (error_cb s rid 200).completedTfs sym
    ∧ (∀ e, s.expectedTfs sym = some e → e.isEmpty = false →
        e.all (fun t => t ∈ insert_tf tf (s.completedTfs sym)) = true →
        s.currentIndex < s.watchlist.length →
        s.watchlist.getD s.currentIndex "" = sym →
        (error_cb s rid 200).currentIndex = s.currentIndex + 1) := by
  unfold error_cb
  rw [hreq]
  dsimp only
  rw [if_pos rfl]
  refine ⟨?_, ?_, ?_⟩
  · rw [try_advance_signals]
    show (upd s.signals sym (some (placeholder_record sym (s.positionCosts sym)))) sym = _
    rw [upd_same]
  · rw [show (try_advance_after_symbol _ sym).completedTfs = _ from try_advance_completed _ sym]
    show tf ∈ (upd s.completedTfs sym (insert_tf tf (s.completedTfs sym))) sym
    rw [upd_same]
    exact mem_insert_tf tf _
  · intro e hexp hene hsub hidx hcur
    have hadv := try_advance_advances
      { s with signals := upd s.signals sym (some (placeholder_record sym (s.positionCosts sym))), completedTfs := upd s.completedTfs sym (insert_tf tf (s.completedTfs sym)) }
      sym e hexp hene
      (by
        show (e.all fun t =>
          t ∈ (upd s.completedTfs sym (insert_tf tf (s.completedTfs sym))) sym) = true
        rw [upd_same]
        exact hsub)
      hidx hcur
    exact hadv

/-- Counterexample to C3 as frozen: in intraday mode symbol "A" expects both
the 15-minute and 1-hour timeframes; a single code-200 error for its
15-minute request stores the placeholder but the sequencer stays at index 0 —
the rejection alone does not advance to the next symbol. -/
theorem C3_counterexample :
    ((error_cb c3_state 3001 200).signals "A").isSome = true
    ∧ (error_cb c3_state 3001 200).currentIndex = 0 := by
  decide

/-- Witness for C3: in daily mode (one expected timeframe) a single code-200
error stores the placeholder, completes the timeframe, and advances the
sequencer from 0 to 1. -/
theorem C3_witness :
    (error_cb w3_state 3009 200).signals "A" = some (placeholder_record "A" (some 50))
    ∧ "1d" ∈ (error_cb w3_state 3009 200).completedTfs "A"
    ∧ (error_cb w3_state 3009 200).currentIndex = 1 := by
  have h := C3_theorem w3_state 3009 "A" "1d" (by decide)
  exact ⟨h.1, h.2.1,
    h.2.2 ["1d"] (by decide) (by decide)
      (by decide) (by decide)
      (by decide)⟩

/-- Witness for C1: the non-positive-cost branch at cost 0, and the length
bounds at cost 100. -/
theorem C1_witness :
    compute_price_bands (some 0) none none none none = none
    ∧ ((1 ≤ (({ defense := [85, 90, 95], offense := [105, 110, 115, 120] } : PriceBands)).defense.length
        ∧ (({ defense := [85, 90, 95], offense := [105, 110, 115, 120] } : PriceBands)).defense.length ≤ 3)
      ∧ (1 ≤ (({ defense := [85, 90, 95], offense := [105, 110, 115, 120] } : PriceBands)).offense.length
        ∧ (({ defense := [85, 90, 95], offense := [105, 110, 115, 120] } : PriceBands)).offense.length ≤ 4)) :=
  ⟨C1_theorem.2.1 0 none none none none (le_refl 0),
   C1_theorem.2.2 100 none none none none
     { defense := [85, 90, 95], offense := [105, 110, 115, 120] } (by decide)⟩

/-- Counterexample to C1 as frozen: at cost 0.0002 the three defense seeds and
the four offense seeds each collapse to a single value under 4-decimal
deduplication, yet the engine still returns a (1,1)-level ladder instead of
"unavailable". -/
theorem C1_counterexample :
    (compute_price_bands (some (1/5000)) none none none none).map
      (fun b => (b.defense.length, b.offense.length)) = some (1, 1) := by
  decide

end Strategy
